import Mathlib

/-!
Verification of the window-placement core of `infracommand`
(`window_utils.py` and the placement-dispatch logic of `infracommand.py`).

The Python code is shallowly embedded: pure functions become Lean functions
over `ℤ` (Python ints) and `ℚ` (Python floats, idealised as exact rationals);
the platform calls (monitor query, `SetWindowPos`, window enumeration) are
parameters of the embedded functions; the global mutable set
`_UNMANAGEABLE_HWND` is threaded explicitly as state.
-/

/-- A screen rectangle `(x, y, w, h)` in physical pixels, as returned by
`get_quadrant_physical` and `clamp_rect_to_primary` (`window_utils.py`). -/
structure Rect where
  x : ℤ
  y : ℤ
  w : ℤ
  h : ℤ
deriving DecidableEq, Repr

/-- A work-area `(L, T, R, B)` in physical pixels, as returned by
`primary_workarea_physical` (`window_utils.py` line 38).  The real function
queries the primary monitor (falling back to `(0, 0, 1920, 1080)`); the
embedding passes the bounds as an explicit parameter. -/
structure Bounds where
  L : ℤ
  T : ℤ
  R : ℤ
  B : ℤ
deriving DecidableEq, Repr

/-- Python `int(q)`: truncation toward zero.  A rational `q` in lowest terms
has `q.den > 0`, and `Int.tdiv` truncates toward zero exactly like Python's
`int()` applied to a float. -/
def pytrunc (q : ℚ) : ℤ :=
  Int.tdiv q.num (q.den : ℤ)

/-- The edge-margin shrink of `get_quadrant_physical`
(`window_utils.py` lines 61-70): `outer = max(8, int(edge_margin_ratio * min(W, H)))`,
then move every side inward by `outer`. -/
def shrink_workarea (wa : Bounds) (edge_margin : ℚ) : Bounds :=
  let W := wa.R - wa.L
  let H := wa.B - wa.T
  let outer := max 8 (pytrunc (edge_margin * ((min W H : ℤ) : ℚ)))
  ⟨wa.L + outer, wa.T + outer, wa.R - outer, wa.B - outer⟩

/-- The quadrant lookup of `get_quadrant_physical`
(`window_utils.py` lines 72-83): `half_w, half_h = W // 2, H // 2` (Python `//`
is floor division, `Int.fdiv`), then `quadrant_map.get(quad, quadrant_map["FULL"])`:
any label other than `"TL"`, `"TR"`, `"BL"`, `"BR"` — including `"FULL"` itself —
yields the `"FULL"` entry `(L, T, W, H)`. -/
def quadrant_map (L T W H : ℤ) (quad : String) : Rect :=
  let half_w := Int.fdiv W 2
  let half_h := Int.fdiv H 2
  if quad = "TL" then ⟨L, T, half_w, half_h⟩
  else if quad = "TR" then ⟨L + half_w, T, half_w, half_h⟩
  else if quad = "BL" then ⟨L, T + half_h, half_w, half_h⟩
  else if quad = "BR" then ⟨L + half_w, T + half_h, half_w, half_h⟩
  else ⟨L, T, W, H⟩

/-- The fill-ratio shrink of `get_quadrant_physical`
(`window_utils.py` lines 85-91): `target_w = int(w * fill_ratio)`,
`x += (w - target_w) // 2`, and likewise for the vertical axis. -/
def apply_fill (r : Rect) (fill : ℚ) : Rect :=
  let target_w := pytrunc ((r.w : ℚ) * fill)
  let target_h := pytrunc ((r.h : ℚ) * fill)
  ⟨r.x + Int.fdiv (r.w - target_w) 2, r.y + Int.fdiv (r.h - target_h) 2,
    target_w, target_h⟩

/-- `get_quadrant_physical(quad, fill_ratio, edge_margin_ratio)`
(`window_utils.py` lines 49-91), with the work area passed explicitly. -/
def get_quadrant_physical (wa : Bounds) (quad : String) (fill edge_margin : ℚ) : Rect :=
  let s := shrink_workarea wa edge_margin
  apply_fill (quadrant_map s.L s.T (s.R - s.L) (s.B - s.T) quad) fill

/-- `clamp_rect_to_primary(x, y, w, h)` (`window_utils.py` lines 93-106),
with the work area passed explicitly.  The four `if`s run in source order:
raise `x` to `L`, raise `y` to `T`, then pull `x` back so `x + w ≤ R`,
and pull `y` back so `y + h ≤ B`.  Width and height are returned unchanged. -/
def clamp_rect_to_primary (wa : Bounds) (x y w h : ℤ) : Rect :=
  let x1 := if x < wa.L then wa.L else x
  let y1 := if y < wa.T then wa.T else y
  let x2 := if x1 + w > wa.R then wa.R - w else x1
  let y2 := if y1 + h > wa.B then wa.B - h else y1
  ⟨x2, y2, w, h⟩

/-- Pixel `(px, py)` lies in rectangle `r` (half-open on the right/bottom,
matching Win32 pixel rectangles of width `w` starting at `x`). -/
def inRect (px py : ℤ) (r : Rect) : Prop :=
  r.x ≤ px ∧ px < r.x + r.w ∧ r.y ≤ py ∧ py < r.y + r.h

/-- Two rectangles share no pixel. -/
def rectsDisjoint (a b : Rect) : Prop :=
  ∀ px py : ℤ, ¬(inRect px py a ∧ inRect px py b)

/-- The union of four rectangles is exactly the half-open block
`[x0, x1) × [y0, y1)`. -/
def unionIsBlock (a b c d : Rect) (x0 y0 x1 y1 : ℤ) : Prop :=
  ∀ px py : ℤ,
    (inRect px py a ∨ inRect px py b ∨ inRect px py c ∨ inRect px py d) ↔
      (x0 ≤ px ∧ px < x1 ∧ y0 ≤ py ∧ py < y1)

/-- The attributes of one top-level window that `find_windows_by_criteria`
(`window_utils.py` lines 234-326) reads through the platform API:
`IsWindowVisible`, `GetParent`, `GetClassName`, `GetWindowThreadProcessId`,
`GetWindowText` (already a total string there), `get_image_name_basename`
(lower-cased by that helper), the process session id, and `GetWindowRect`
(`none` models the call raising, which makes the enumeration callback skip
the window). -/
structure PyWindow where
  visible : Bool
  hasParent : Bool
  className : String
  pid : ℤ
  title : String
  imageName : String
  sessionId : ℤ
  rect : Option (ℤ × ℤ × ℤ × ℤ)
deriving DecidableEq, Repr

/-- The optional filters of `find_windows_by_criteria`.  Python passes `None`
for an absent filter; for the three list filters `None` and `[]` behave
identically (both are falsy), so the embedding uses plain lists. -/
structure MatchCriteria where
  pid : Option ℤ := none
  class_names : List String := []
  title_contains : List String := []
  image_names : List String := []
  session_id : Option ℤ := none
deriving DecidableEq, Repr

/-- Python `str.lower()`, modelled character-wise over the string's
character list (which agrees with CPython on the ASCII class and title
strings this code compares). -/
def pyLower (s : String) : String :=
  ⟨s.data.map Char.toLower⟩

/-- Class-name rejection (`window_utils.py` lines 268-274): applied only when
`class_names` is non-empty, and a window whose class is
`"ApplicationFrameWindow"` is exempt. -/
def classRejects (c : MatchCriteria) (w : PyWindow) : Bool :=
  decide (c.class_names ≠ [] ∧ w.className ∉ c.class_names ∧
    w.className ≠ "ApplicationFrameWindow")

/-- Pid rejection (`window_utils.py` lines 276-279). -/
def pidRejects (c : MatchCriteria) (w : PyWindow) : Bool :=
  match c.pid with
  | some p => decide (w.pid ≠ p)
  | none => false

/-- `title_searches = [s.lower() for s in (title_contains or []) if s]`
(`window_utils.py` line 258). -/
def titleSearches (c : MatchCriteria) : List String :=
  (c.title_contains.filter (fun s => !s.isEmpty)).map (fun s => pyLower s)

/-- Title rejection (`window_utils.py` lines 282-288): applied only when the
normalized substring list is non-empty; a window survives if some lower-cased
substring occurs in its lower-cased title, and otherwise is still kept when
`class_names` was provided and the window class is
`"ApplicationFrameWindow"`. -/
def titleRejects (c : MatchCriteria) (w : PyWindow) : Bool :=
  decide (titleSearches c ≠ []) &&
    !((titleSearches c).any (fun s => decide (s.data <:+: (pyLower w.title).data))) &&
    decide (c.class_names = [] ∨ w.className ≠ "ApplicationFrameWindow")

/-- `image_set = set((name or "").lower() for name in (image_names or []))`
(`window_utils.py` line 259). -/
def imageSet (c : MatchCriteria) : List String :=
  c.image_names.map (fun s => pyLower s)

/-- Image-name rejection (`window_utils.py` lines 291-298). -/
def imageRejects (c : MatchCriteria) (w : PyWindow) : Bool :=
  decide (imageSet c ≠ []) && decide (w.imageName ∉ imageSet c)

/-- Session-id rejection (`window_utils.py` lines 301-308). -/
def sessionRejects (c : MatchCriteria) (w : PyWindow) : Bool :=
  match c.session_id with
  | some s => decide (w.sessionId ≠ s)
  | none => false

/-- The unconditional minimum-size check (`window_utils.py` lines 310-313):
read `GetWindowRect` (a raising call skips the window) and require
`r - l ≥ 200` and `b - t ≥ 120`. -/
def sizeAccepts (w : PyWindow) : Bool :=
  match w.rect with
  | some (l, t, r, b) => decide (¬(r - l < 200 ∨ b - t < 120))
  | none => false

/-- The per-window body of the enumeration callback of
`find_windows_by_criteria` (`window_utils.py` lines 261-318), with the checks
in source order and short-circuiting on the first failure. -/
def matchesCriteria (c : MatchCriteria) (w : PyWindow) : Bool :=
  if !w.visible then false
  else if w.hasParent then false
  else if classRejects c w then false
  else if pidRejects c w then false
  else if titleRejects c w then false
  else if imageRejects c w then false
  else if sessionRejects c w then false
  else sizeAccepts w

/-- `find_windows_by_criteria` (`window_utils.py` lines 234-326), with the
desktop's window list passed explicitly in enumeration order. -/
def find_windows_by_criteria (c : MatchCriteria) (windows : List PyWindow) : List PyWindow :=
  windows.filter (fun w => matchesCriteria c w)

/-- The snapshot diff `[h for h in current_windows if h not in before_windows]`
of `place_by_snapshot` (`infracommand.py` line 1209 for browsers, line 1267
for MMC), over opaque window handles. -/
def snapshot_diff (before_windows current_windows : List ℤ) : List ℤ :=
  current_windows.filter (fun hw => decide (hw ∉ before_windows))

/-- `get_window_area(hwnd)` (`window_utils.py` lines 199-205):
`max(0, r - l) * max(0, b - t)`, and `0` when `GetWindowRect` raises. -/
def get_window_area (rect : Option (ℤ × ℤ × ℤ × ℤ)) : ℤ :=
  match rect with
  | some (l, t, r, b) => max 0 (r - l) * max 0 (b - t)
  | none => 0

/-- The key `get_window_area` applied to a window's rectangle. -/
def windowArea (w : PyWindow) : ℤ :=
  get_window_area w.rect

/-- Python's `max(x :: xs, key)`: scan left to right, replacing the current
best only on a strictly greater key (so the first maximal element wins).
Used as `max(windows, key=get_window_area)` in every placement loop
(`infracommand.py` lines 1213, 1271, 1999, ...). -/
def pymax {α : Type} (key : α → ℤ) (x : α) (xs : List α) : α :=
  xs.foldl (fun acc yv => if key acc < key yv then yv else acc) x

/-- `t` is an element of `x :: xs` whose key is greatest. -/
def isMaxBy {α : Type} (key : α → ℤ) (x : α) (xs : List α) (t : α) : Prop :=
  (t = x ∨ t ∈ xs) ∧ ∀ u, (u = x ∨ u ∈ xs) → key u ≤ key t

/-- One call observed by `safe_set_window_pos_hwnd`: the handle it is asked to
move, and how the platform `SetWindowPos`/`GetLastError` pair would behave if
the call were issued (`ok` = the `BOOL` result, `err` = the error code after a
failure). -/
structure MoveCall where
  hwnd : ℤ
  ok : Bool
  err : ℤ
deriving DecidableEq, Repr

/-- What one invocation of `safe_set_window_pos_hwnd` did: its return value,
the `_UNMANAGEABLE_HWND` set afterwards, and whether the platform positioning
call was actually issued. -/
structure MoveResult where
  ret : Bool
  unmanageable : Finset ℤ
  attempted : Bool
deriving DecidableEq

/-- `safe_set_window_pos_hwnd` (`window_utils.py` lines 152-171) with the
global `_UNMANAGEABLE_HWND` set threaded as state: a blacklisted handle
returns `False` without issuing the platform call; a successful call returns
`True`; a failed call with `GetLastError() == 5` (`ERROR_ACCESS_DENIED`) adds
the handle to the set and returns `False`; any other failure returns `False`
with the set unchanged. -/
def safe_set_window_pos_hwnd (s : Finset ℤ) (call : MoveCall) : MoveResult :=
  if call.hwnd ∈ s then ⟨false, s, false⟩
  else if call.ok then ⟨true, s, true⟩
  else if call.err = 5 then ⟨false, insert call.hwnd s, true⟩
  else ⟨false, s, true⟩

/-- The `_UNMANAGEABLE_HWND` set after a sequence of calls, starting from `s`.
The set is only ever added to (`window_utils.py` line 168); no code removes
from it. -/
def unmanageableAfter (s : Finset ℤ) : List MoveCall → Finset ℤ
  | [] => s
  | call :: rest => unmanageableAfter (safe_set_window_pos_hwnd s call).unmanageable rest

/-- The results of a sequence of `safe_set_window_pos_hwnd` calls, threading
the `_UNMANAGEABLE_HWND` set through the process lifetime. -/
def runMoves (s : Finset ℤ) : List MoveCall → List MoveResult
  | [] => []
  | call :: rest =>
      safe_set_window_pos_hwnd s call ::
        runMoves (safe_set_window_pos_hwnd s call).unmanageable rest

/-- The retry skeleton shared by the placement schedulers of
`infracommand.py`: the kickoff delay of the single `QTimer.singleShot` that
starts the poll loop (`none` when the scheduler never starts it), the
re-poll delay as a function of the attempt counter just incremented, and the
attempt bound compared by `attempt < maxAttempts`. -/
structure RetryPolicy where
  initialDelay : Option ℕ
  interval : ℕ → ℕ
  maxAttempts : ℕ

/-- `_schedule_window_placement_by_pid` (`infracommand.py` lines 1983-2032):
kickoff 1200 ms for console labels (`cmd`/`powershell`/`ps`) else 800 ms,
re-poll every 600 ms for consoles else 500 ms, `max_attempts = 20`. -/
def pid_placement_policy (isConsole : Bool) : RetryPolicy :=
  ⟨some (if isConsole then 1200 else 800),
    fun _ => if isConsole then 600 else 500, 20⟩

/-- `_schedule_browser_placement_by_snapshot` (`infracommand.py` lines
1197-1230): the nested `place_by_snapshot` re-polls every 500 ms with
`attempt < 20`, but the method body ends after the `def` — it contains no
`QTimer.singleShot` kickoff and never calls `place_by_snapshot`, so the loop
is never started (contrast `_schedule_mmc_placement_by_snapshot`, whose last
line 1314 is `QTimer.singleShot(1200, place_by_snapshot)`). -/
def browser_snapshot_policy : RetryPolicy :=
  ⟨none, fun _ => 500, 20⟩

/-- `_schedule_mmc_placement_by_snapshot` (`infracommand.py` lines 1255-1314):
kickoff 1200 ms, re-poll every 600 ms, `attempt < 18`. -/
def mmc_snapshot_policy : RetryPolicy :=
  ⟨some 1200, fun _ => 600, 18⟩

/-- `_schedule_powershell_placement` (`infracommand.py` lines 1663-1727),
used for PowerShell script and elevated PowerShell launches: kickoff 1000 ms,
re-poll 800 ms for the first 10 attempts then 1200 ms, `max_attempts = 25`. -/
def powershell_placement_policy : RetryPolicy :=
  ⟨some 1000, fun attempt => if attempt < 10 then 800 else 1200, 25⟩

/-- `_schedule_rds_window_placement` (`infracommand.py` lines 2161-2222):
kickoff 1500 ms, re-poll 800 ms for the first 10 attempts then 1000 ms,
`max_attempts = 25`. -/
def rds_placement_policy : RetryPolicy :=
  ⟨some 1500, fun attempt => if attempt < 10 then 800 else 1000, 25⟩

/-- The poll loop shared by every placement scheduler (e.g.
`place_by_pid`, `infracommand.py` lines 1987-2028): increment the attempt
counter, poll once; stop on a hit, otherwise re-arm while
`attempt < maxAttempts` and report a timeout when the budget is exhausted.
Returns the number of polls performed from this entry and whether the loop
ended in a timeout report. -/
def pollLoop (found : ℕ → Bool) (maxAttempts : ℕ) (attempt : ℕ) : ℕ × Bool :=
  if found (attempt + 1) then (1, false)
  else if _ha : attempt + 1 < maxAttempts then
    ((pollLoop found maxAttempts (attempt + 1)).1 + 1,
      (pollLoop found maxAttempts (attempt + 1)).2)
  else (1, true)
termination_by maxAttempts - attempt

/-- Every value of `p.interval` lies within `[lo, hi]`. -/
def intervalWithin (p : RetryPolicy) (lo hi : ℕ) : Prop :=
  ∀ attempt : ℕ, lo ≤ p.interval attempt ∧ p.interval attempt ≤ hi

lemma quadrant_map_TL (L T W H : ℤ) :
    quadrant_map L T W H "TL" = ⟨L, T, Int.fdiv W 2, Int.fdiv H 2⟩ := by
  simp [quadrant_map]

lemma quadrant_map_TR (L T W H : ℤ) :
    quadrant_map L T W H "TR" = ⟨L + Int.fdiv W 2, T, Int.fdiv W 2, Int.fdiv H 2⟩ := by
  simp [quadrant_map]

lemma quadrant_map_BL (L T W H : ℤ) :
    quadrant_map L T W H "BL" = ⟨L, T + Int.fdiv H 2, Int.fdiv W 2, Int.fdiv H 2⟩ := by
  simp [quadrant_map]

lemma quadrant_map_BR (L T W H : ℤ) :
    quadrant_map L T W H "BR" =
      ⟨L + Int.fdiv W 2, T + Int.fdiv H 2, Int.fdiv W 2, Int.fdiv H 2⟩ := by
  simp [quadrant_map]

lemma quadrant_map_default (L T W H : ℤ) (quad : String)
    (h1 : quad ≠ "TL") (h2 : quad ≠ "TR") (h3 : quad ≠ "BL") (h4 : quad ≠ "BR") :
    quadrant_map L T W H quad = ⟨L, T, W, H⟩ := by
  simp [quadrant_map, h1, h2, h3, h4]

/-- Claim C9: the clamp-to-work-area operation never changes a rectangle's
width or height, only its position, and it is idempotent: clamping an
already-clamped rectangle yields the same rectangle. -/
theorem clamp_preserves_size_and_idempotent (wa : Bounds) (x y w h : ℤ) :
    (clamp_rect_to_primary wa x y w h).w = w ∧
    (clamp_rect_to_primary wa x y w h).h = h ∧
    clamp_rect_to_primary wa (clamp_rect_to_primary wa x y w h).x
      (clamp_rect_to_primary wa x y w h).y w h =
      clamp_rect_to_primary wa x y w h := by
  refine ⟨rfl, rfl, ?_⟩
  simp only [clamp_rect_to_primary]
  split_ifs <;> simp_all [Rect.mk.injEq] <;> omega

/-- Claim C10: for every quadrant label outside the five recognized labels
`"TL"`, `"TR"`, `"BL"`, `"BR"`, `"FULL"`, and for all fill and margin ratios,
`get_quadrant_physical` does not fail but returns exactly the same rectangle
as the `"FULL"` label. -/
theorem quadrant_unknown_label_gives_full (wa : Bounds) (quad : String)
    (fill edge_margin : ℚ)
    (h1 : quad ≠ "TL") (h2 : quad ≠ "TR") (h3 : quad ≠ "BL") (h4 : quad ≠ "BR")
    (h5 : quad ≠ "FULL") :
    get_quadrant_physical wa quad fill edge_margin =
      get_quadrant_physical wa "FULL" fill edge_margin := by
  simp only [get_quadrant_physical]
  rw [quadrant_map_default _ _ _ _ _ h1 h2 h3 h4,
    quadrant_map_default _ _ _ _ _ (by decide) (by decide) (by decide) (by decide)]

/-- Witness for C10 at the concrete label `"XX"` on a 1920×1080 work area. -/
theorem quadrant_unknown_label_gives_full_witness :
    get_quadrant_physical ⟨0, 0, 1920, 1080⟩ "XX" (995/1000) (1/100) =
      get_quadrant_physical ⟨0, 0, 1920, 1080⟩ "FULL" (995/1000) (1/100) :=
  quadrant_unknown_label_gives_full ⟨0, 0, 1920, 1080⟩ "XX" (995/1000) (1/100)
    (by decide) (by decide) (by decide) (by decide) (by decide)

/-- Claim C8: for a fixed (margin-shrunk) work area of origin `(L, T)` and
size `W × H`, the four non-`FULL` quadrant rectangles are pairwise
non-overlapping, their union is exactly the block
`[L, L + 2*(W//2)) × [T, T + 2*(H//2))`, that block lies inside the shrunk
work area, and at most one pixel per axis is lost to integer halving. -/
theorem quadrants_disjoint_and_cover (L T W H : ℤ) (hW : 0 ≤ W) (hH : 0 ≤ H) :
    rectsDisjoint (quadrant_map L T W H "TL") (quadrant_map L T W H "TR") ∧
    rectsDisjoint (quadrant_map L T W H "TL") (quadrant_map L T W H "BL") ∧
    rectsDisjoint (quadrant_map L T W H "TL") (quadrant_map L T W H "BR") ∧
    rectsDisjoint (quadrant_map L T W H "TR") (quadrant_map L T W H "BL") ∧
    rectsDisjoint (quadrant_map L T W H "TR") (quadrant_map L T W H "BR") ∧
    rectsDisjoint (quadrant_map L T W H "BL") (quadrant_map L T W H "BR") ∧
    unionIsBlock (quadrant_map L T W H "TL") (quadrant_map L T W H "TR")
      (quadrant_map L T W H "BL") (quadrant_map L T W H "BR")
      L T (L + 2 * Int.fdiv W 2) (T + 2 * Int.fdiv H 2) ∧
    L + 2 * Int.fdiv W 2 ≤ L + W ∧ T + 2 * Int.fdiv H 2 ≤ T + H ∧
    W - 2 * Int.fdiv W 2 ≤ 1 ∧ H - 2 * Int.fdiv H 2 ≤ 1 := by
  have hW2 : Int.fdiv W 2 = W / 2 := Int.fdiv_eq_ediv W (by norm_num)
  have hH2 : Int.fdiv H 2 = H / 2 := Int.fdiv_eq_ediv H (by norm_num)
  simp only [quadrant_map_TL, quadrant_map_TR, quadrant_map_BL, quadrant_map_BR,
    rectsDisjoint, unionIsBlock, inRect, hW2, hH2]
  refine ⟨?_, ?_, ?_, ?_, ?_, ?_, ?_, ?_, ?_, ?_, ?_⟩ <;>
    first
      | (intro px py; omega)
      | omega

/-- Witness for C8 on the concrete shrunk work area `(8, 8)`–`(1912, 1072)`
(1904×1064 pixels). -/
theorem quadrants_disjoint_and_cover_witness :
    rectsDisjoint (quadrant_map 8 8 1904 1064 "TL") (quadrant_map 8 8 1904 1064 "TR") ∧
    rectsDisjoint (quadrant_map 8 8 1904 1064 "TL") (quadrant_map 8 8 1904 1064 "BL") ∧
    rectsDisjoint (quadrant_map 8 8 1904 1064 "TL") (quadrant_map 8 8 1904 1064 "BR") ∧
    rectsDisjoint (quadrant_map 8 8 1904 1064 "TR") (quadrant_map 8 8 1904 1064 "BL") ∧
    rectsDisjoint (quadrant_map 8 8 1904 1064 "TR") (quadrant_map 8 8 1904 1064 "BR") ∧
    rectsDisjoint (quadrant_map 8 8 1904 1064 "BL") (quadrant_map 8 8 1904 1064 "BR") ∧
    unionIsBlock (quadrant_map 8 8 1904 1064 "TL") (quadrant_map 8 8 1904 1064 "TR")
      (quadrant_map 8 8 1904 1064 "BL") (quadrant_map 8 8 1904 1064 "BR")
      8 8 (8 + 2 * Int.fdiv 1904 2) (8 + 2 * Int.fdiv 1064 2) ∧
    8 + 2 * Int.fdiv 1904 2 ≤ 8 + 1904 ∧ 8 + 2 * Int.fdiv 1064 2 ≤ 8 + 1064 ∧
    (1904 : ℤ) - 2 * Int.fdiv 1904 2 ≤ 1 ∧ (1064 : ℤ) - 2 * Int.fdiv 1064 2 ≤ 1 :=
  quadrants_disjoint_and_cover 8 8 1904 1064 (by decide) (by decide)

lemma pymax_cons {α : Type} (key : α → ℤ) (x y : α) (ys : List α) :
    pymax key x (y :: ys) = pymax key (if key x < key y then y else x) ys := rfl

lemma pymax_mem {α : Type} (key : α → ℤ) :
    ∀ (xs : List α) (x : α), pymax key x xs = x ∨ pymax key x xs ∈ xs := by
  intro xs
  induction xs with
  | nil => intro x; exact Or.inl rfl
  | cons y ys ih =>
      intro x
      rw [pymax_cons]
      by_cases hk : key x < key y
      · rw [if_pos hk]
        rcases ih y with h | h
        · rw [h]; exact Or.inr (List.mem_cons_self y ys)
        · exact Or.inr (List.mem_cons_of_mem y h)
      · rw [if_neg hk]
        rcases ih x with h | h
        · exact Or.inl h
        · exact Or.inr (List.mem_cons_of_mem y h)

lemma pymax_le {α : Type} (key : α → ℤ) :
    ∀ (xs : List α) (x u : α), (u = x ∨ u ∈ xs) → key u ≤ key (pymax key x xs) := by
  intro xs
  induction xs with
  | nil =>
      intro x u hu
      rcases hu with rfl | h
      · exact le_refl _
      · cases h
  | cons y ys ih =>
      intro x u hu
      rw [pymax_cons]
      have hx : key x ≤ key (if key x < key y then y else x) := by
        by_cases hk : key x < key y
        · rw [if_pos hk]; omega
        · rw [if_neg hk]
      have hy : key y ≤ key (if key x < key y then y else x) := by
        by_cases hk : key x < key y
        · rw [if_pos hk]
        · rw [if_neg hk]; omega
      rcases hu with rfl | hmem
      · exact le_trans hx (ih _ _ (Or.inl rfl))
      · rcases List.mem_cons.mp hmem with rfl | hmem'
        · exact le_trans hy (ih _ _ (Or.inl rfl))
        · exact ih _ _ (Or.inr hmem')

lemma unmanageableAfter_append (s : Finset ℤ) (l1 l2 : List MoveCall) :
    unmanageableAfter s (l1 ++ l2) = unmanageableAfter (unmanageableAfter s l1) l2 := by
  induction l1 generalizing s with
  | nil => rfl
  | cons c cs ih =>
      simp only [List.cons_append, unmanageableAfter]
      exact ih _

lemma subset_step (s : Finset ℤ) (call : MoveCall) :
    s ⊆ (safe_set_window_pos_hwnd s call).unmanageable := by
  unfold safe_set_window_pos_hwnd
  split_ifs <;> first
    | exact Finset.Subset.refl _
    | exact Finset.subset_insert _ _

lemma mem_unmanageableAfter (l : List MoveCall) :
    ∀ (s : Finset ℤ) (a : ℤ), a ∈ s → a ∈ unmanageableAfter s l := by
  induction l with
  | nil => intro s a ha; exact ha
  | cons c cs ih =>
      intro s a ha
      simp only [unmanageableAfter]
      exact ih _ _ (subset_step s c ha)

lemma denial_inserts (s : Finset ℤ) (call : MoveCall)
    (hok : call.ok = false) (herr : call.err = 5) :
    call.hwnd ∈ (safe_set_window_pos_hwnd s call).unmanageable := by
  unfold safe_set_window_pos_hwnd
  split_ifs with h1 h2
  · exact h1
  · simp [hok] at h2
  · exact Finset.mem_insert_self _ _

lemma blocked_result (s : Finset ℤ) (call : MoveCall) (h : call.hwnd ∈ s) :
    safe_set_window_pos_hwnd s call = ⟨false, s, false⟩ := by
  unfold safe_set_window_pos_hwnd
  rw [if_pos h]

lemma runMoves_append (l1 l2 : List MoveCall) :
    ∀ s : Finset ℤ, runMoves s (l1 ++ l2) =
      runMoves s l1 ++ runMoves (unmanageableAfter s l1) l2 := by
  induction l1 with
  | nil => intro s; rfl
  | cons c cs ih =>
      intro s
      simp only [List.cons_append, runMoves, unmanageableAfter, List.append_eq]
      rw [ih]

/-- Claim C1: once `safe_set_window_pos_hwnd` observes an access-denied
platform error (failed call, `GetLastError() == 5`) for a handle, it adds the
handle to `_UNMANAGEABLE_HWND`, and every later call for that handle in the
process lifetime returns `False` immediately without issuing the platform
positioning call; a failure with any other error code returns `False` without
mutating `_UNMANAGEABLE_HWND`.  Here `pre`, `mid`, `post` are the other calls
of the process run, `c` is the denied call, `d` any later call on the same
handle, and `e` any call failing with a non-access-denied code. -/
theorem unmanageable_denial_is_permanent (s0 : Finset ℤ)
    (pre mid post : List MoveCall) (c d e : MoveCall) (s' : Finset ℤ)
    (hcok : c.ok = false) (hcerr : c.err = 5) (hd : d.hwnd = c.hwnd)
    (heok : e.ok = false) (heerr : e.err ≠ 5) :
    c.hwnd ∈ (safe_set_window_pos_hwnd (unmanageableAfter s0 pre) c).unmanageable ∧
    runMoves s0 ((pre ++ c :: mid) ++ d :: post) =
      runMoves s0 (pre ++ c :: mid) ++
        safe_set_window_pos_hwnd (unmanageableAfter s0 (pre ++ c :: mid)) d ::
        runMoves (safe_set_window_pos_hwnd
          (unmanageableAfter s0 (pre ++ c :: mid)) d).unmanageable post ∧
    (safe_set_window_pos_hwnd (unmanageableAfter s0 (pre ++ c :: mid)) d).attempted = false ∧
    (safe_set_window_pos_hwnd (unmanageableAfter s0 (pre ++ c :: mid)) d).ret = false ∧
    (safe_set_window_pos_hwnd s' e).ret = false ∧
    (safe_set_window_pos_hwnd s' e).unmanageable = s' := by
  have hins : c.hwnd ∈ (safe_set_window_pos_hwnd (unmanageableAfter s0 pre) c).unmanageable :=
    denial_inserts _ c hcok hcerr
  have hmem : d.hwnd ∈ unmanageableAfter s0 (pre ++ c :: mid) := by
    rw [hd]
    have : pre ++ c :: mid = (pre ++ [c]) ++ mid := by simp
    rw [this, unmanageableAfter_append]
    refine mem_unmanageableAfter mid _ _ ?_
    rw [unmanageableAfter_append]
    exact hins
  have hblocked := blocked_result _ d hmem
  have hother : (safe_set_window_pos_hwnd s' e).ret = false ∧
      (safe_set_window_pos_hwnd s' e).unmanageable = s' := by
    unfold safe_set_window_pos_hwnd
    split_ifs with h1 h2
    · exact ⟨rfl, rfl⟩
    · simp [heok] at h2
    · exact ⟨rfl, rfl⟩
  refine ⟨hins, ?_, ?_, ?_, hother.1, hother.2⟩
  · rw [runMoves_append]
    rfl
  · rw [hblocked]
  · rw [hblocked]

/-- Witness for C1: handle 7 is denied (error 5); a later call for handle 7
is refused without an attempt even though the platform would now accept it;
handle 9 fails with error 3 and the set is unchanged. -/
theorem unmanageable_denial_is_permanent_witness :
    (7 : ℤ) ∈ (safe_set_window_pos_hwnd (∅ : Finset ℤ) ⟨7, false, 5⟩).unmanageable ∧
    runMoves ∅ [⟨7, false, 5⟩, ⟨7, true, 0⟩] =
      runMoves ∅ [⟨7, false, 5⟩] ++
        safe_set_window_pos_hwnd (unmanageableAfter ∅ [⟨7, false, 5⟩]) ⟨7, true, 0⟩ ::
        runMoves (safe_set_window_pos_hwnd
          (unmanageableAfter ∅ [⟨7, false, 5⟩]) ⟨7, true, 0⟩).unmanageable [] ∧
    (safe_set_window_pos_hwnd (unmanageableAfter ∅ [⟨7, false, 5⟩]) ⟨7, true, 0⟩).attempted = false ∧
    (safe_set_window_pos_hwnd (unmanageableAfter ∅ [⟨7, false, 5⟩]) ⟨7, true, 0⟩).ret = false ∧
    (safe_set_window_pos_hwnd (∅ : Finset ℤ) ⟨9, false, 3⟩).ret = false ∧
    (safe_set_window_pos_hwnd (∅ : Finset ℤ) ⟨9, false, 3⟩).unmanageable = ∅ :=
  unmanageable_denial_is_permanent ∅ [] [] [] ⟨7, false, 5⟩ ⟨7, true, 0⟩ ⟨9, false, 3⟩ ∅
    rfl rfl rfl rfl (by decide)

/-- Claim C4: under the snapshot-diff strategy, a later enumeration equal to
the pre-launch snapshot `S` plus one new handle yields exactly that handle as
the candidate set, regardless of the contents of `S`. -/
theorem snapshot_diff_single_new (S : List ℤ) (hNew : ℤ) (hnot : hNew ∉ S) :
    snapshot_diff S (S ++ [hNew]) = [hNew] := by
  unfold snapshot_diff
  rw [List.filter_append]
  have h1 : List.filter (fun hw => decide (hw ∉ S)) S = [] := by
    rw [List.filter_eq_nil_iff]
    intro a ha
    simp [ha]
  have h2 : List.filter (fun hw => decide (hw ∉ S)) [hNew] = [hNew] := by
    simp [hnot]
  rw [h1, h2, List.nil_append]

/-- Witness for C4 on the snapshot `[5, 9]` and new handle `12`. -/
theorem snapshot_diff_single_new_witness :
    snapshot_diff [5, 9] ([5, 9] ++ [12]) = [12] :=
  snapshot_diff_single_new [5, 9] 12 (by decide)

/-- Claim C5: when a poll yields several candidate windows, the one selected
(`max(windows, key=get_window_area)`) is a member of the candidate list whose
area is greatest, where the area is the clamped-non-negative product of the
rectangle's width and height and `0` when the rectangle cannot be read. -/
theorem placement_selects_largest_area (w : PyWindow) (ws : List PyWindow)
    (o : Option (ℤ × ℤ × ℤ × ℤ)) (l t r b : ℤ) :
    isMaxBy windowArea w ws (pymax windowArea w ws) ∧
    get_window_area (some (l, t, r, b)) = max 0 (r - l) * max 0 (b - t) ∧
    get_window_area none = 0 ∧
    0 ≤ get_window_area o := by
  refine ⟨⟨pymax_mem _ _ _, fun u hu => pymax_le _ _ _ _ hu⟩, rfl, rfl, ?_⟩
  cases o with
  | none => exact le_refl 0
  | some p =>
      obtain ⟨l', t', r', b'⟩ := p
      exact mul_nonneg (le_max_left _ _) (le_max_left _ _)

/-- Claim C6: `matchesCriteria` holds exactly when every filter passes, and
the unconditional minimum-size filter passes exactly when the window rectangle
is readable with width at least 200 and height at least 120; membership in the
result of `find_windows_by_criteria` is membership in the enumeration plus a
positive match.  In particular a window narrower than 200 or shorter than 120
is excluded whatever the other filters say, and a window rejected by no other
filter with width ≥ 200 and height ≥ 120 is included. -/
theorem matcher_min_size_characterization (c : MatchCriteria) (w : PyWindow)
    (ws : List PyWindow) :
    (matchesCriteria c w = true ↔
      (w.visible = true ∧ w.hasParent = false ∧ classRejects c w = false ∧
        pidRejects c w = false ∧ titleRejects c w = false ∧
        imageRejects c w = false ∧ sessionRejects c w = false ∧
        sizeAccepts w = true)) ∧
    (sizeAccepts w = true ↔
      ∃ l t r b : ℤ, w.rect = some (l, t, r, b) ∧ 200 ≤ r - l ∧ 120 ≤ b - t) ∧
    (w ∈ find_windows_by_criteria c ws ↔ (w ∈ ws ∧ matchesCriteria c w = true)) := by
  refine ⟨?_, ?_, ?_⟩
  · unfold matchesCriteria
    split_ifs with h1 h2 h3 h4 h5 h6 h7 <;> simp_all
  · unfold sizeAccepts
    cases hr : w.rect with
    | none => simp
    | some p =>
        obtain ⟨l, t, r, b⟩ := p
        simp only [decide_eq_true_eq, Option.some.injEq]
        constructor
        · intro h
          exact ⟨l, t, r, b, rfl, by omega, by omega⟩
        · rintro ⟨l', t', r', b', heq, h1, h2⟩
          obtain ⟨rfl, rfl, rfl, rfl⟩ := Prod.mk.injEq .. ▸ heq
          omega
  · simp [find_windows_by_criteria, List.mem_filter]

/-- Claim C7 (amended): in `find_windows_by_criteria`, an
`ApplicationFrameWindow` window is never rejected by the class-name filter
alone — with every other filter passing it matches whatever `class_names`
contains — and the title-substring carve-out applies when `class_names` is
non-empty: then an `ApplicationFrameWindow` window is not rejected by the
title filter even if its title matches no substring.  (In the code the title
carve-out requires a non-empty `class_names`; with `class_names` empty a
title miss rejects the window, see the counterexample.) -/
theorem matcher_appframe_carveouts (c : MatchCriteria) (w : PyWindow)
    (hclass : w.className = "ApplicationFrameWindow")
    (hvis : w.visible = true) (hpar : w.hasParent = false)
    (hpid : pidRejects c w = false) (himg : imageRejects c w = false)
    (hsess : sessionRejects c w = false) (hsize : sizeAccepts w = true) :
    (titleRejects c w = false → matchesCriteria c w = true) ∧
    (c.class_names ≠ [] → titleRejects c w = false) := by
  have hcr : classRejects c w = false := by
    simp [classRejects, hclass]
  constructor
  · intro ht
    simp [matchesCriteria, hvis, hpar, hcr, hpid, ht, himg, hsess, hsize]
  · intro hcn
    simp [titleRejects, hclass, hcn]

/-- Witness for C7: an `ApplicationFrameWindow` window matches criteria whose
`class_names` does not contain its class, and with `class_names` non-empty the
title filter does not reject it although its title `"bar"` contains no
occurrence of the searched substring `"foo"`. -/
theorem matcher_appframe_carveouts_witness :
    matchesCriteria { class_names := ["OtherClass"] }
      ⟨true, false, "ApplicationFrameWindow", 1, "bar", "app.exe", 0,
        some (0, 0, 400, 300)⟩ = true ∧
    titleRejects { class_names := ["OtherClass"], title_contains := ["foo"] }
      ⟨true, false, "ApplicationFrameWindow", 1, "bar", "app.exe", 0,
        some (0, 0, 400, 300)⟩ = false :=
  ⟨(matcher_appframe_carveouts { class_names := ["OtherClass"] }
      ⟨true, false, "ApplicationFrameWindow", 1, "bar", "app.exe", 0,
        some (0, 0, 400, 300)⟩
      rfl rfl rfl (by decide) (by decide) (by decide) (by decide)).1 (by decide),
   (matcher_appframe_carveouts { class_names := ["OtherClass"], title_contains := ["foo"] }
      ⟨true, false, "ApplicationFrameWindow", 1, "bar", "app.exe", 0,
        some (0, 0, 400, 300)⟩
      rfl rfl rfl (by decide) (by decide) (by decide) (by decide)).2 (by decide)⟩

/-- Counterexample to C7 as stated: with a title filter but no class filter,
an `ApplicationFrameWindow` window whose title (`"bar"`) matches none of the
substrings (`["foo"]`) IS rejected — the same window with the title filter
removed is included, so the title filter alone rejected it, contradicting the
claim that the carve-out applies to every criteria set containing title
substrings. -/
theorem matcher_title_carveout_needs_class_filter :
    matchesCriteria { title_contains := ["foo"] }
      ⟨true, false, "ApplicationFrameWindow", 1, "bar", "app.exe", 0,
        some (0, 0, 400, 300)⟩ = false ∧
    matchesCriteria {}
      ⟨true, false, "ApplicationFrameWindow", 1, "bar", "app.exe", 0,
        some (0, 0, 400, 300)⟩ = true := by
  exact ⟨by decide, by decide⟩

lemma pollLoop_neverFound (found : ℕ → Bool) (h : ∀ k, found k = false) :
    ∀ (n M att : ℕ), M - att = n → att < M →
      pollLoop found M att = (M - att, true) := by
  intro n
  induction n with
  | zero => intro M att h1 h2; omega
  | succ m ih =>
      intro M att h1 h2
      rw [pollLoop, h (att + 1)]
      simp only [Bool.false_eq_true, if_false]
      by_cases hlt : att + 1 < M
      · rw [dif_pos hlt, ih M (att + 1) (by omega) hlt]
        have hsub : M - (att + 1) + 1 = M - att := by omega
        simp [hsub]
      · rw [dif_neg hlt]
        have hsub : M - att = 1 := by omega
        rw [hsub]

/-- Claim C2 (amended): a placement retry loop that never finds a matching
window performs exactly its attempt-budget many polls and then reports a
timeout with no further polling; the kind-dependent constants are: consoles
600 ms / 20 attempts (`place_by_pid`), browsers 500 ms / 20 attempts (a loop
that is moreover never started, see C3), MMC snapshot-diff 600 ms / 18
attempts, and the elevated PowerShell and RDSH schedulers 800–1200 ms / 25
attempts. -/
theorem retry_budgets_and_intervals (found : ℕ → Bool) (h : ∀ k, found k = false) :
    pollLoop found (pid_placement_policy true).maxAttempts 0 = (20, true) ∧
    (pid_placement_policy true).interval 1 = 600 ∧
    (pid_placement_policy false).interval 1 = 500 ∧
    pollLoop found browser_snapshot_policy.maxAttempts 0 = (20, true) ∧
    browser_snapshot_policy.interval 1 = 500 ∧
    pollLoop found mmc_snapshot_policy.maxAttempts 0 = (18, true) ∧
    mmc_snapshot_policy.interval 1 = 600 ∧
    pollLoop found powershell_placement_policy.maxAttempts 0 = (25, true) ∧
    intervalWithin powershell_placement_policy 800 1200 ∧
    pollLoop found rds_placement_policy.maxAttempts 0 = (25, true) ∧
    intervalWithin rds_placement_policy 800 1200 := by
  have h20 := pollLoop_neverFound found h 20 20 0 rfl (by omega)
  have h18 := pollLoop_neverFound found h 18 18 0 rfl (by omega)
  have h25 := pollLoop_neverFound found h 25 25 0 rfl (by omega)
  refine ⟨h20, rfl, rfl, h20, rfl, h18, rfl, h25, ?_, h25, ?_⟩
  · intro att
    unfold powershell_placement_policy
    dsimp only
    split_ifs <;> omega
  · intro att
    unfold rds_placement_policy
    dsimp only
    split_ifs <;> omega

/-- Witness for C2 with the concrete never-matching poll predicate. -/
theorem retry_budgets_and_intervals_witness :
    pollLoop (fun _ => false) (pid_placement_policy true).maxAttempts 0 = (20, true) ∧
    (pid_placement_policy true).interval 1 = 600 ∧
    (pid_placement_policy false).interval 1 = 500 ∧
    pollLoop (fun _ => false) browser_snapshot_policy.maxAttempts 0 = (20, true) ∧
    browser_snapshot_policy.interval 1 = 500 ∧
    pollLoop (fun _ => false) mmc_snapshot_policy.maxAttempts 0 = (18, true) ∧
    mmc_snapshot_policy.interval 1 = 600 ∧
    pollLoop (fun _ => false) powershell_placement_policy.maxAttempts 0 = (25, true) ∧
    intervalWithin powershell_placement_policy 800 1200 ∧
    pollLoop (fun _ => false) rds_placement_policy.maxAttempts 0 = (25, true) ∧
    intervalWithin rds_placement_policy 800 1200 :=
  retry_budgets_and_intervals (fun _ => false) (fun _ => rfl)

/-- Counterexample to C2 as stated: the claim puts the MMC snapshot-diff loop
at ~500 ms with up to 20 attempts, but `_schedule_mmc_placement_by_snapshot`
re-polls every 600 ms and bounds the counter by `attempt < 18`. -/
theorem mmc_budget_differs_from_claim :
    mmc_snapshot_policy.interval 1 = 600 ∧
    mmc_snapshot_policy.maxAttempts = 18 ∧
    ¬(mmc_snapshot_policy.interval 1 = 500 ∧ mmc_snapshot_policy.maxAttempts = 20) :=
  ⟨rfl, rfl, by decide⟩

/-- Claim C3 (code bug in the source): `_schedule_browser_placement_by_snapshot`
defines its `place_by_snapshot` poll loop but never schedules or calls it —
there is no kickoff `QTimer.singleShot`, so after a successful
snapshot-strategy browser launch no polling, snapshot diffing, or placement
ever happens; the MMC twin `_schedule_mmc_placement_by_snapshot` does arm its
kickoff timer at 1200 ms. -/
theorem browser_snapshot_loop_never_started :
    browser_snapshot_policy.initialDelay = none ∧
    mmc_snapshot_policy.initialDelay = some 1200 :=
  ⟨rfl, rfl⟩
